import Mathlib

/-!
Shallow embedding of the signal-routing and order-execution engine of
`src/main.py` (lyra-bot-cloud): symbol normalizer, request signer
(HMAC-SHA256 hex digest), position-risk response parsing, position sizer,
signal router (`handle_signal`) and the `/webhook` handler's control flow.

Python floats are modelled as exact rationals (`ℚ`), machine words as `Nat`
reduced modulo `2 ^ 32` where the algorithm wraps, and Python's set of
processed alert ids as a `Finset String`.
-/

/-! ### SHA-256 (FIPS 180-4), over byte lists, words as `Nat` mod `2 ^ 32` -/

def w32 (n : Nat) : Nat := n % 4294967296

def rotr32 (n w : Nat) : Nat := w32 (w / 2 ^ n + w % 2 ^ n * 2 ^ (32 - n))

def shr32 (n w : Nat) : Nat := w / 2 ^ n

def chFn (x y z : Nat) : Nat := (x &&& y) ^^^ ((x ^^^ 4294967295) &&& z)

def majFn (x y z : Nat) : Nat := (x &&& y) ^^^ (x &&& z) ^^^ (y &&& z)

def bigSigma0 (x : Nat) : Nat := rotr32 2 x ^^^ rotr32 13 x ^^^ rotr32 22 x

def bigSigma1 (x : Nat) : Nat := rotr32 6 x ^^^ rotr32 11 x ^^^ rotr32 25 x

def smallSigma0 (x : Nat) : Nat := rotr32 7 x ^^^ rotr32 18 x ^^^ shr32 3 x

def smallSigma1 (x : Nat) : Nat := rotr32 17 x ^^^ rotr32 19 x ^^^ shr32 10 x

/-- The 64 SHA-256 round constants, in decimal. -/
def K256 : List Nat :=
  [1116352408, 1899447441, 3049323471, 3921009573, 961987163, 1508970993,
   2453635748, 2870763221, 3624381080, 310598401, 607225278, 1426881987,
   1925078388, 2162078206, 2614888103, 3248222580, 3835390401, 4022224774,
   264347078, 604807628, 770255983, 1249150122, 1555081692, 1996064986,
   2554220882, 2821834349, 2952996808, 3210313671, 3336571891, 3584528711,
   113926993, 338241895, 666307205, 773529912, 1294757372, 1396182291,
   1695183700, 1986661051, 2177026350, 2456956037, 2730485921, 2820302411,
   3259730800, 3345764771, 3516065817, 3600352804, 4094571909, 275423344,
   430227734, 506948616, 659060556, 883997877, 958139571, 1322822218,
   1537002063, 1747873779, 1955562222, 2024104815, 2227730452, 2361852424,
   2428436474, 2756734187, 3204031479, 3329325298]

structure Hash8 where
  a : Nat
  b : Nat
  c : Nat
  d : Nat
  e : Nat
  f : Nat
  g : Nat
  h : Nat
deriving DecidableEq, Repr

/-- The eight SHA-256 initial hash values, in decimal. -/
def sha256Init : Hash8 :=
  ⟨1779033703, 3144134277, 1013904242, 2773480762,
   1359893119, 2600822924, 528734635, 1541459225⟩

/-- Big-endian packing of bytes into 32-bit words (trailing incomplete group dropped;
inputs are always a multiple of 4 bytes). -/
def wordsOfBytes : List Nat → List Nat
  | b0 :: b1 :: b2 :: b3 :: rest =>
      (b0 * 2 ^ 24 + b1 * 2 ^ 16 + b2 * 2 ^ 8 + b3) :: wordsOfBytes rest
  | _ => []

/-- Extend the 16-word block to the 64-word message schedule. -/
def extendSchedule (w16 : List Nat) : List Nat :=
  (List.range 48).foldl
    (fun ws _ =>
      let n := ws.length
      ws ++ [w32 (smallSigma1 (ws.getD (n - 2) 0) + ws.getD (n - 7) 0 +
                  smallSigma0 (ws.getD (n - 15) 0) + ws.getD (n - 16) 0)])
    w16

def roundStep (st : Hash8) (kw : Nat × Nat) : Hash8 :=
  let t1 := w32 (st.h + bigSigma1 st.e + chFn st.e st.f st.g + kw.1 + kw.2)
  let t2 := w32 (bigSigma0 st.a + majFn st.a st.b st.c)
  ⟨w32 (t1 + t2), st.a, st.b, st.c, w32 (st.d + t1), st.e, st.f, st.g⟩

def compress (st : Hash8) (block : List Nat) : Hash8 :=
  let ws := extendSchedule (wordsOfBytes block)
  let t := (K256.zip ws).foldl roundStep st
  ⟨w32 (st.a + t.a), w32 (st.b + t.b), w32 (st.c + t.c), w32 (st.d + t.d),
   w32 (st.e + t.e), w32 (st.f + t.f), w32 (st.g + t.g), w32 (st.h + t.h)⟩

def lenBytes64 (n : Nat) : List Nat :=
  [n / 2 ^ 56 % 256, n / 2 ^ 48 % 256, n / 2 ^ 40 % 256, n / 2 ^ 32 % 256,
   n / 2 ^ 24 % 256, n / 2 ^ 16 % 256, n / 2 ^ 8 % 256, n % 256]

/-- Merkle–Damgård padding: `0x80`, zeros to 56 mod 64, 8-byte big-endian bit length. -/
def padMsg (msg : List Nat) : List Nat :=
  msg ++ [0x80] ++ List.replicate ((119 - msg.length % 64) % 64) 0 ++ lenBytes64 (8 * msg.length)

/-- Split a byte list into 64-byte blocks (padded input is a multiple of 64). -/
def chunks64 (l : List Nat) : List (List Nat) :=
  let r := l.foldl
    (fun (acc : List (List Nat) × List Nat) b =>
      let cur := acc.2 ++ [b]
      if cur.length = 64 then (acc.1 ++ [cur], []) else (acc.1, cur))
    ([], [])
  if r.2.isEmpty then r.1 else r.1 ++ [r.2]

def wordBytes (w : Nat) : List Nat := [w / 2 ^ 24 % 256, w / 2 ^ 16 % 256, w / 2 ^ 8 % 256, w % 256]

def digestBytes (st : Hash8) : List Nat :=
  wordBytes st.a ++ wordBytes st.b ++ wordBytes st.c ++ wordBytes st.d ++
  wordBytes st.e ++ wordBytes st.f ++ wordBytes st.g ++ wordBytes st.h

def sha256 (msg : List Nat) : List Nat :=
  digestBytes ((chunks64 (padMsg msg)).foldl compress sha256Init)

/-! ### HMAC-SHA256 and hex digest (models Python `hmac.new(..., hashlib.sha256).hexdigest()`) -/

def hmacSha256 (key msg : List Nat) : List Nat :=
  let k0 := if key.length > 64 then sha256 key else key
  let kp := k0 ++ List.replicate (64 - k0.length) 0
  sha256 (kp.map (fun b => b ^^^ 0x5c) ++ sha256 (kp.map (fun b => b ^^^ 0x36) ++ msg))

def hexChar (n : Nat) : Char := if n < 10 then Char.ofNat (48 + n) else Char.ofNat (87 + n)

def hexByte (b : Nat) : List Char := [hexChar (b / 16), hexChar (b % 16)]

def hexdigest (bytes : List Nat) : String := String.mk (bytes.flatMap hexByte)

/-- UTF-8 encoding of one character (models Python `str.encode("utf-8")`). -/
def utf8BytesOfChar (c : Char) : List Nat :=
  let n := c.toNat
  if n < 0x80 then [n]
  else if n < 0x800 then [0xC0 + n / 0x40, 0x80 + n % 0x40]
  else if n < 0x10000 then [0xE0 + n / 0x1000, 0x80 + n / 0x40 % 0x40, 0x80 + n % 0x40]
  else [0xF0 + n / 0x40000, 0x80 + n / 0x1000 % 0x40, 0x80 + n / 0x40 % 0x40, 0x80 + n % 0x40]

def strBytes (s : String) : List Nat := s.data.flatMap utf8BytesOfChar

/-- `_sign` from `src/main.py`: HMAC-SHA256 hex digest of the query string, keyed by
the configured API secret (here an explicit argument instead of the module global
`BINANCE_API_SECRET`). -/
def _sign (secret query : String) : String :=
  hexdigest (hmacSha256 (strBytes secret) (strBytes query))

/-! ### Python string primitives, implemented structurally over the character list -/

/-- Python `str.upper()` (ASCII range; the tickers and verbs in scope are ASCII). -/
def pyUpperChar (c : Char) : Char :=
  if 97 ≤ c.toNat && c.toNat ≤ 122 then Char.ofNat (c.toNat - 32) else c

def pyUpper (s : String) : String := String.mk (s.data.map pyUpperChar)

/-- Python `str.lower()` (ASCII range). -/
def pyLowerChar (c : Char) : Char :=
  if 65 ≤ c.toNat && c.toNat ≤ 90 then Char.ofNat (c.toNat + 32) else c

def pyLower (s : String) : String := String.mk (s.data.map pyLowerChar)

def isPySpace (c : Char) : Bool :=
  c == ' ' || c == '\t' || c == '\n' || c == '\r' || c == '\x0b' || c == '\x0c'

def stripChars (l : List Char) : List Char :=
  ((l.dropWhile isPySpace).reverse.dropWhile isPySpace).reverse

/-- Python `str.strip()` with no argument: remove surrounding whitespace. -/
def pyStrip (s : String) : String := String.mk (stripChars s.data)

/-- Python `str.endsWith` / slicing check used by the normalizer. -/
def strEndsWith (s suffix : String) : Bool := suffix.data.isSuffixOf s.data

/-- Python `str.split(sep)` for a one-character separator (always non-empty). -/
def splitOnChar (sep : Char) (l : List Char) : List (List Char) :=
  l.foldr
    (fun x acc =>
      match acc with
      | [] => [[x]]
      | g :: gs => if x == sep then [] :: g :: gs else (x :: g) :: gs)
    [[]]

/-! ### JSON values (parsed request/response bodies) and Python-semantics helpers -/

inductive Json where
  | null
  | bool (b : Bool)
  | num (q : ℚ)
  | str (s : String)
  | arr (items : List Json)
  | obj (fields : List (String × Json))

/-- `dict.get(key)` on a parsed JSON object (keys of a parsed dict are distinct). -/
def jsonGet (fields : List (String × Json)) (key : String) : Option Json :=
  (fields.find? (fun p => p.1 == key)).map (fun p => p.2)

/-- Python truthiness of a JSON value (`bool(x)`). -/
def pyTruthy : Json → Bool
  | .null => false
  | .bool b => b
  | .num q => q != 0
  | .str s => s != ""
  | .arr l => !l.isEmpty
  | .obj f => !f.isEmpty

/-- Python `str(x)` on a JSON value. `None` renders as `"None"`; integral numbers render
as integers; composite values are abstracted (no claim depends on their rendering). -/
def pyStr : Json → String
  | .null => "None"
  | .bool b => if b then "True" else "False"
  | .str s => s
  | .num q => if q.den = 1 then toString q.num else toString q
  | .arr _ => "[...]"
  | .obj _ => "{...}"

def digitsToNat (l : List Char) : Nat :=
  l.foldl (fun a c => a * 10 + (c.toNat - 48)) 0

/-- Signed decimal integer (exponent part of a float literal). -/
def parseSignedInt (l : List Char) : Option Int :=
  match l with
  | '+' :: r => if !r.isEmpty && r.all Char.isDigit then some (digitsToNat r) else none
  | '-' :: r => if !r.isEmpty && r.all Char.isDigit then some (-(digitsToNat r : Int)) else none
  | r => if !r.isEmpty && r.all Char.isDigit then some (digitsToNat r) else none

/-- Unsigned decimal mantissa: `digits`, `digits.digits`, `digits.` or `.digits`. -/
def parseMantissa (l : List Char) : Option ℚ :=
  let ip := l.takeWhile Char.isDigit
  let rest := l.dropWhile Char.isDigit
  match rest with
  | [] => if ip.isEmpty then none else some (digitsToNat ip)
  | '.' :: frac =>
      if frac.all Char.isDigit && !(ip.isEmpty && frac.isEmpty) then
        some ((digitsToNat ip : ℚ) + (digitsToNat frac : ℚ) / (10 : ℚ) ^ frac.length)
      else none
  | _ => none

/-- Python `float(s)` on a decimal string literal: optional sign, mantissa, optional
exponent, surrounding whitespace ignored (`inf`/`nan` spellings are not modelled). -/
def parseFloatStr (s : String) : Option ℚ :=
  let t := stripChars s.data
  let (sign, t) : ℚ × List Char :=
    match t with
    | '+' :: r => (1, r)
    | '-' :: r => (-1, r)
    | r => (1, r)
  let mantChars := t.takeWhile (fun c => c != 'e' && c != 'E')
  let expChars := t.dropWhile (fun c => c != 'e' && c != 'E')
  match parseMantissa mantChars with
  | none => none
  | some m =>
      match expChars with
      | [] => some (sign * m)
      | _ :: e =>
          match parseSignedInt e with
          | some ex => some (sign * m * (10 : ℚ) ^ ex)
          | none => none

/-- Python `float(x)` on a JSON value: numbers pass through, booleans coerce to 0/1,
strings are parsed as decimal literals; anything else raises (`none`). -/
def pyFloat : Json → Option ℚ
  | .num q => some q
  | .bool b => some (if b then 1 else 0)
  | .str s => parseFloatStr s
  | _ => none

/-! ### Symbol normalizer (`tv_to_binance_symbol` in `src/main.py`) -/

/-- `tv_to_binance_symbol`: substring after the last `:`, uppercased then stripped
(Python `.split(":")[-1].upper().strip()`), with `USD` → `USDT` fix-up. -/
def tv_to_binance_symbol (tv_symbol : String) : String :=
  if tv_symbol = "" then ""
  else
    let sym := pyStrip (pyUpper (String.mk ((splitOnChar ':' tv_symbol.data).getLastD [])))
    if strEndsWith sym "USD" && !(strEndsWith sym "USDT") then sym ++ "T" else sym

/-! ### Position-risk response parsing (`_binance_futures_get_position_qty`) -/

/-- Amount of one entry: `float(it.get("positionAmt", "0"))` with the `try/except`
that returns `0.0` when the conversion raises. -/
def entryAmt (fields : List (String × Json)) : ℚ :=
  match pyFloat ((jsonGet fields "positionAmt").getD (.str "0")) with
  | some q => q
  | none => 0

/-- `it.get("symbol") == symbol` for a loop item that is a dict. -/
def entryMatches (fields : List (String × Json)) (symbol : String) : Bool :=
  match jsonGet fields "symbol" with
  | some (.str t) => t == symbol
  | _ => false

/-- The loop `for it in data: ...` of `_binance_futures_get_position_qty`. Items that
are not dicts make Python raise `AttributeError` on `it.get`. -/
def positionLoop (symbol : String) : List Json → Except String ℚ
  | [] => .ok 0
  | .obj fields :: rest =>
      if entryMatches fields symbol then .ok (entryAmt fields)
      else positionLoop symbol rest
  | _ :: _ => .error "AttributeError"

/-- Parsing part of `_binance_futures_get_position_qty` applied to the decoded response
body: a dict is wrapped into a one-element list; iterating a non-empty string raises on
the first character; iterating `null`/`bool`/number raises `TypeError`. -/
def _binance_futures_get_position_qty (data : Json) (symbol : String) : Except String ℚ :=
  match data with
  | .obj fields => positionLoop symbol [.obj fields]
  | .arr items => positionLoop symbol items
  | .str s => if s = "" then .ok 0 else .error "AttributeError"
  | _ => .error "TypeError"

/-! ### Position sizer (`_calc_qty_from_usdt`) -/

/-- Round to the nearest integer, ties to the even integer (Python's `round` on the
exact decimal value). -/
def pyRoundHalfEven (x : ℚ) : Int :=
  let f := ⌊x⌋
  let r := x - f
  if r < 1 / 2 then f
  else if 1 / 2 < r then f + 1
  else if f % 2 = 0 then f else f + 1

/-- Python `round(x, 3)` on the exact decimal value. -/
def pyRound3 (x : ℚ) : ℚ := (pyRoundHalfEven (x * 1000) : ℚ) / 1000

/-- `_calc_qty_from_usdt`: `min_qty` when the price is falsy or non-positive, otherwise
`max(min_qty, round((usdt * leverage) / price, 3))`. -/
def _calc_qty_from_usdt (price usdt : ℚ) (leverage : Int) (min_qty : ℚ) : ℚ :=
  if price = 0 ∨ price ≤ 0 then min_qty
  else max min_qty (pyRound3 (usdt * (leverage : ℚ) / price))

/-! ### Signal router (`handle_signal`) -/

structure Order where
  symbol : String
  side : String
  qty : ℚ
  reduceOnly : Bool
deriving DecidableEq, Repr

/-- Outcome of one `handle_signal` call: the JSON of the placed order's exchange
response (opaque here, identified by the order), or the skip dict it returns. -/
inductive RouterResult where
  | placed (o : Order)
  | skipped (reason : String)
deriving DecidableEq, Repr

/-- `handle_signal` from `src/main.py`. The exchange is external: the freshly fetched
position (`_binance_futures_get_position_qty`) enters as `pos_qty`, and the first
component collects the market orders sent via `_binance_futures_market_order`. -/
def handle_signal (tv_symbol action : String) (qty : ℚ) (allow_short : Bool)
    (pos_qty : ℚ) : List Order × RouterResult :=
  let symbol := tv_to_binance_symbol tv_symbol
  let act := pyUpper (pyStrip action)
  if act = "BUY" then
    let o : Order := ⟨symbol, "BUY", qty, false⟩
    ([o], .placed o)
  else if act = "SELL" then
    if 0 < pos_qty then
      let o : Order := ⟨symbol, "SELL", min qty pos_qty, true⟩
      ([o], .placed o)
    else if allow_short then
      let o : Order := ⟨symbol, "SELL", qty, false⟩
      ([o], .placed o)
    else ([], .skipped "no long to close; short disabled")
  else if act = "SHORT" then
    let o : Order := ⟨symbol, "SELL", qty, false⟩
    ([o], .placed o)
  else if act = "COVER" then
    if pos_qty < 0 then
      let o : Order := ⟨symbol, "BUY", min qty |pos_qty|, true⟩
      ([o], .placed o)
    else ([], .skipped "no short to close")
  else ([], .skipped ("unknown action " ++ act))

/-- The `close` branch of the webhook (lines 298–301 of `src/main.py`): route the
signal as `SELL` then as `COVER`, each with `allow_short=False` and each against
its own freshly fetched position; collect all orders sent. -/
def closeOrders (tv_symbol : String) (qty : ℚ) (posSell posCover : ℚ) : List Order :=
  (handle_signal tv_symbol "SELL" qty false posSell).1 ++
  (handle_signal tv_symbol "COVER" qty false posCover).1

/-! ### Webhook handler (`/webhook` route) -/

structure Config where
  passphrase : String
  apiKey : String
  apiSecret : String
  orderUsdt : ℚ
  leverage : Int
deriving DecidableEq, Repr

/-- Responses the handler can produce after the JSON body has parsed. -/
inductive Resp where
  | unauthorized
  | duplicate
  | badAction (raw : String)
  | ignored (raw : String)
  | okDetail (action : String) (id : String)
  | serverError
deriving DecidableEq, Repr

structure WebhookOut where
  state : Finset String
  resp : Resp
  orders : List Order
deriving DecidableEq

/-- The `action_map` dict of the webhook. -/
def action_map : List (String × String) :=
  [("buy", "buy"), ("sell", "sell"), ("close", "close"), ("long", "buy"),
   ("short", "short"), ("exit_long", "close"), ("exit_short", "close"),
   ("hb", "ignore"), ("test", "ignore")]

/-- `alert_id = str(payload.get("id"))`. -/
def alertId (payload : List (String × Json)) : String :=
  pyStr ((jsonGet payload "id").getD .null)

/-- `payload.get("passphrase") != APP_PASSPHRASE` is false exactly when the payload
carries that string. -/
def passphraseOk (payload : List (String × Json)) (pass : String) : Bool :=
  match jsonGet payload "passphrase" with
  | some (.str s) => s == pass
  | _ => false

/-- `(payload.get("action") or "").lower().strip()`: falsy values give `""`, truthy
non-strings make `.lower()` raise `AttributeError`. -/
def actionRaw (payload : List (String × Json)) : Except String String :=
  let v := (jsonGet payload "action").getD .null
  if !pyTruthy v then .ok ""
  else
    match v with
    | .str s => .ok (pyStrip (pyLower s))
    | _ => .error "AttributeError"

/-- The `/webhook` handler of `src/main.py` after JSON parsing, as a state transformer
on the processed-ids set `_ids_processados`. The exchange is external: `posSell` is the
position fetched by the first `handle_signal` call and `posCover` the one fetched by
the second (only the `close` action performs two calls). Leverage setting and the
realized-PnL query have no effect on the response or the order stream and are omitted. -/
def webhook (cfg : Config) (ids : Finset String) (payload : List (String × Json))
    (posSell posCover : ℚ) : WebhookOut :=
  if cfg.passphrase = "" ∨ passphraseOk payload cfg.passphrase = false then
    ⟨ids, .unauthorized, []⟩
  else
    let alert_id := alertId payload
    if alert_id ∈ ids then ⟨ids, .duplicate, []⟩
    else
      let ids := insert alert_id ids
      match actionRaw payload with
      | .error _ => ⟨ids, .serverError, []⟩
      | .ok action_raw =>
        match action_map.lookup action_raw with
        | none => ⟨ids, .badAction action_raw, []⟩
        | some action =>
          if action = "ignore" then ⟨ids, .ignored action_raw, []⟩
          else
            let symbol := pyStr ((jsonGet payload "symbol").getD (.str ""))
            let price_f := pyFloat ((jsonGet payload "price").getD .null)
            let symbol_b := tv_to_binance_symbol symbol
            if cfg.apiKey = "" ∨ cfg.apiSecret = "" then ⟨ids, .okDetail action alert_id, []⟩
            else if symbol_b = "" then ⟨ids, .okDetail action alert_id, []⟩
            else
              let qty := _calc_qty_from_usdt (price_f.getD 0) cfg.orderUsdt cfg.leverage (1 / 1000)
              let orders :=
                if action = "buy" then (handle_signal symbol "BUY" qty false posSell).1
                else if action = "sell" then (handle_signal symbol "SELL" qty false posSell).1
                else if action = "short" then (handle_signal symbol "SHORT" qty true posSell).1
                else if action = "close" then closeOrders symbol qty posSell posCover
                else []
              if action = "buy" ∨ action = "sell" ∨ action = "short" ∨ action = "close" then
                ⟨ids, .okDetail action alert_id, orders⟩
              else ⟨ids, .badAction action_raw, []⟩

/-! ### Spec-side formulas, for comparison with the source definitions -/

/-- Normalization rule exactly as the specification words it: the uppercased substring
after the last colon, with `T` appended when that substring ends in `USD` but not
`USDT` (no whitespace stripping). -/
def normalizeSpec (t : String) : String :=
  let sym := pyUpper (String.mk ((splitOnChar ':' t.data).getLastD []))
  if strEndsWith sym "USD" && !(strEndsWith sym "USDT") then sym ++ "T" else sym

/-- Normalization rule as amended: the stripped uppercased substring after the last
colon, then the `USD` → `USDT` fix-up. -/
def normalizeSpecStripped (t : String) : String :=
  let sym := pyStrip (pyUpper (String.mk ((splitOnChar ':' t.data).getLastD [])))
  if strEndsWith sym "USD" && !(strEndsWith sym "USDT") then sym ++ "T" else sym

set_option maxRecDepth 100000 in
theorem sha256_empty_vector :
    hexdigest (sha256 []) = "e3b0c44298fc1c149afbf4c8996fb92427ae41e4649b934ca495991b7852b855" := by
  decide

set_option maxRecDepth 400000 in
theorem sha256_abc_vector :
    hexdigest (sha256 (strBytes "abc")) =
      "ba7816bf8f01cfea414140de5dae2223b00361a396177a9cb410ff61f20015ad" := by
  decide

set_option maxRecDepth 400000 in
theorem hmac_rfc_vector :
    _sign "key" "The quick brown fox jumps over the lazy dog" =
      "f7bc83f430538424b13298e6aa6fb143ef4d59a14946175997479dbc2d1a3cd8" := by
  decide

/-! ### Router theorems -/

theorem actNorm_BUY : pyUpper (pyStrip "BUY") = "BUY" := by decide

theorem actNorm_SELL : pyUpper (pyStrip "SELL") = "SELL" := by decide

theorem actNorm_SHORT : pyUpper (pyStrip "SHORT") = "SHORT" := by decide

theorem actNorm_COVER : pyUpper (pyStrip "COVER") = "COVER" := by decide

/-- C3: a `Sell` action against a strictly positive fetched position places exactly one
reduce-only Sell whose quantity is `min(requested, position)`. -/
theorem sell_closes_long_clamped (tv_symbol : String) (qty : ℚ) (allow_short : Bool)
    (pos : ℚ) (h : 0 < pos) :
    handle_signal tv_symbol "SELL" qty allow_short pos =
      ([⟨tv_to_binance_symbol tv_symbol, "SELL", min qty pos, true⟩],
       .placed ⟨tv_to_binance_symbol tv_symbol, "SELL", min qty pos, true⟩) := by
  simp [handle_signal, actNorm_SELL, h]

/-- C3 witness: position `2.0`, requested quantity `5.0` yields one reduce-only Sell of
quantity `2.0` on the normalized symbol. -/
theorem sell_closes_long_clamped_witness :
    handle_signal "BINANCE:ETHUSD" "SELL" 5 false 2 =
      ([⟨"ETHUSDT", "SELL", 2, true⟩], .placed ⟨"ETHUSDT", "SELL", 2, true⟩) := by
  have h := sell_closes_long_clamped "BINANCE:ETHUSD" 5 false 2 (by norm_num)
  simpa using h

/-- C4: a `Sell` action with shorting disabled and a non-positive fetched position
places no order and skips with the exact reason string. -/
theorem sell_short_disabled_skips (tv_symbol : String) (qty pos : ℚ) (h : pos ≤ 0) :
    handle_signal tv_symbol "SELL" qty false pos =
      ([], .skipped "no long to close; short disabled") := by
  simp [handle_signal, actNorm_SELL, not_lt.mpr h]

/-- C4 witness: flat position, `allow_short=False`. -/
theorem sell_short_disabled_skips_witness :
    handle_signal "BINANCE:BTCUSDT" "SELL" 1 false 0 =
      ([], .skipped "no long to close; short disabled") :=
  sell_short_disabled_skips "BINANCE:BTCUSDT" 1 0 (by norm_num)

/-- C5: `Cover` against a non-negative position places nothing and skips with
"no short to close"; against a strictly negative position it places exactly one
reduce-only Buy of quantity `min(requested, |position|)`. -/
theorem cover_routes (tv_symbol : String) (qty pos : ℚ) (allow_short : Bool) :
    (0 ≤ pos → handle_signal tv_symbol "COVER" qty allow_short pos =
        ([], .skipped "no short to close")) ∧
    (pos < 0 → handle_signal tv_symbol "COVER" qty allow_short pos =
        ([⟨tv_to_binance_symbol tv_symbol, "BUY", min qty |pos|, true⟩],
         .placed ⟨tv_to_binance_symbol tv_symbol, "BUY", min qty |pos|, true⟩)) := by
  constructor
  · intro h
    simp [handle_signal, actNorm_COVER, not_lt.mpr h]
  · intro h
    simp [handle_signal, actNorm_COVER, h]

/-- C5 witness: position `-5` with requested quantity `10` buys `5` reduce-only;
position `0` skips. -/
theorem cover_routes_witness :
    handle_signal "BINANCE:BTCUSDT" "COVER" 10 false (-5) =
      ([⟨"BTCUSDT", "BUY", 5, true⟩], .placed ⟨"BTCUSDT", "BUY", 5, true⟩) ∧
    handle_signal "BINANCE:BTCUSDT" "COVER" 10 false 0 =
      ([], .skipped "no short to close") := by
  constructor
  · have h := (cover_routes "BINANCE:BTCUSDT" 10 (-5) false).2 (by norm_num)
    simpa using h
  · exact (cover_routes "BINANCE:BTCUSDT" 10 0 false).1 (by norm_num)

/-- C1 counterexample: with a flat position on both legs, the `close` action issues
zero order attempts, not two. -/
theorem close_flat_zero_orders :
    closeOrders "BINANCE:BTCUSDT" 1 0 0 = [] ∧
    (closeOrders "BINANCE:BTCUSDT" 1 0 0).length ≠ 2 := by
  decide

/-- C1 amended: the `close` action issues a reduce-only Sell exactly when the position
fetched for its Sell leg is strictly positive, and a reduce-only Buy exactly when the
position fetched for its Cover leg is strictly negative; flat on both legs gives zero
orders. -/
theorem close_routes_amended (tv_symbol : String) (qty posSell posCover : ℚ) :
    closeOrders tv_symbol qty posSell posCover =
      (if 0 < posSell then
        [⟨tv_to_binance_symbol tv_symbol, "SELL", min qty posSell, true⟩] else []) ++
      (if posCover < 0 then
        [⟨tv_to_binance_symbol tv_symbol, "BUY", min qty |posCover|, true⟩] else []) := by
  rcases lt_or_le 0 posSell with h1 | h1 <;> rcases lt_or_le posCover 0 with h2 | h2
  · simp [closeOrders, handle_signal, actNorm_SELL, actNorm_COVER, h1, h2]
  · simp [closeOrders, handle_signal, actNorm_SELL, actNorm_COVER, h1, not_lt.mpr h2]
  · simp [closeOrders, handle_signal, actNorm_SELL, actNorm_COVER, not_lt.mpr h1, h2]
  · simp [closeOrders, handle_signal, actNorm_SELL, actNorm_COVER, not_lt.mpr h1,
          not_lt.mpr h2]

/-! ### Position sizer theorems -/

/-- C6: non-positive prices yield `min_qty`; positive prices yield
`max(min_qty, round(usdt * leverage / price, 3))`; the two concrete scenarios. -/
theorem calc_qty_spec (price usdt : ℚ) (lev : Int) (minq : ℚ) :
    (price ≤ 0 → _calc_qty_from_usdt price usdt lev minq = minq) ∧
    (0 < price → _calc_qty_from_usdt price usdt lev minq =
        max minq (pyRound3 (usdt * (lev : ℚ) / price))) ∧
    _calc_qty_from_usdt 100 1000 1 (1 / 1000) = 10 ∧
    _calc_qty_from_usdt 1000000 50 1 (1 / 1000) = 1 / 1000 := by
  refine ⟨fun h => ?_, fun h => ?_, ?_, ?_⟩
  · simp [_calc_qty_from_usdt, h]
  · rw [_calc_qty_from_usdt, if_neg]
    push_neg
    exact ⟨h.ne', h⟩
  · rw [_calc_qty_from_usdt, if_neg (by norm_num)]
    rw [show (1000 : ℚ) * ((1 : Int) : ℚ) / 100 = 10 by norm_num]
    rw [pyRound3, pyRoundHalfEven]
    norm_num
  · rw [_calc_qty_from_usdt, if_neg (by norm_num)]
    rw [show (50 : ℚ) * ((1 : Int) : ℚ) / 1000000 = 1 / 20000 by norm_num]
    rw [pyRound3, pyRoundHalfEven]
    norm_num

/-- C6 witness: a negative price falls back to the minimum quantity. -/
theorem calc_qty_spec_witness :
    _calc_qty_from_usdt (-5) 100 1 (1 / 1000) = 1 / 1000 :=
  (calc_qty_spec (-5) 100 1 (1 / 1000)).1 (by norm_num)

/-! ### Symbol normalizer theorems -/

/-- C8 counterexample: the source strips whitespace after uppercasing, the claimed
formula does not; they disagree when the substring after the colon carries spaces. -/
theorem normalizer_spec_cex :
    tv_to_binance_symbol "EX: btcusd" = "BTCUSDT" ∧
    normalizeSpec "EX: btcusd" = " BTCUSDT" ∧
    tv_to_binance_symbol "EX: btcusd" ≠ normalizeSpec "EX: btcusd" := by
  decide

/-- C8 amended: for tickers containing a colon the normalizer returns the
whitespace-stripped uppercase of the substring after the last colon, `USD` → `USDT`
fixed up; the empty ticker maps to the empty string. -/
theorem normalizer_amended (t : String) (h : ':' ∈ t.data) :
    tv_to_binance_symbol t = normalizeSpecStripped t ∧ tv_to_binance_symbol "" = "" := by
  have ht : t ≠ "" := by
    intro e
    rw [e] at h
    simp at h
  refine ⟨?_, by decide⟩
  simp [tv_to_binance_symbol, normalizeSpecStripped, ht]

/-- C8 witness. -/
theorem normalizer_amended_witness :
    tv_to_binance_symbol "BINANCE:BTCUSD" = normalizeSpecStripped "BINANCE:BTCUSD" ∧
    tv_to_binance_symbol "" = "" :=
  normalizer_amended "BINANCE:BTCUSD" (by decide)

/-! ### Position-risk parsing theorems -/

/-- C7 counterexample: a response that is a bare JSON number makes the call raise
(`TypeError` on iteration) instead of returning `0.0`. -/
theorem position_parse_error_cex :
    _binance_futures_get_position_qty (Json.num 5) "BTCUSDT" = .error "TypeError" := rfl

/-- C7 amended: a single-object response behaves as its one-element collection; over a
collection of object entries the call returns the first matching entry's amount, with
`0.0` substituted when that amount fails to parse as a float, and `0.0` when no entry
matches; the empty-string response also returns `0.0` (its loop runs zero times). Only
the float conversion is guarded, though: a `null`, boolean, number, or non-empty-string
response raises, and the error propagates out of the call. -/
theorem position_qty_amended (symbol : String) (fields : List (String × Json))
    (entries : List (List (String × Json))) (x : Json) :
    _binance_futures_get_position_qty (.obj fields) symbol =
      _binance_futures_get_position_qty (.arr [.obj fields]) symbol ∧
    _binance_futures_get_position_qty (.arr (entries.map Json.obj)) symbol =
      .ok (match entries.find? (fun f => entryMatches f symbol) with
           | some f => entryAmt f
           | none => 0) ∧
    (jsonGet fields "positionAmt" = some x → pyFloat x = none → entryAmt fields = 0) ∧
    _binance_futures_get_position_qty (.str "") symbol = .ok 0 ∧
    _binance_futures_get_position_qty .null symbol = .error "TypeError" ∧
    (∀ b : Bool, _binance_futures_get_position_qty (.bool b) symbol = .error "TypeError") ∧
    (∀ q : ℚ, _binance_futures_get_position_qty (.num q) symbol = .error "TypeError") ∧
    (∀ s : String, s ≠ "" →
      _binance_futures_get_position_qty (.str s) symbol = .error "AttributeError") := by
  refine ⟨rfl, ?_, fun h1 h2 => ?_, rfl, rfl, fun b => rfl, fun q => rfl, fun s hs => ?_⟩
  · show positionLoop symbol (entries.map Json.obj) = _
    induction entries with
    | nil => rfl
    | cons f rest ih =>
        by_cases h : entryMatches f symbol = true
        · simp [positionLoop, h, List.find?_cons_of_pos]
        · rw [List.map_cons]
          rw [show positionLoop symbol (Json.obj f :: rest.map Json.obj) =
                positionLoop symbol (rest.map Json.obj) by simp [positionLoop, h]]
          rw [ih, List.find?_cons_of_neg]
          simpa using h
  · simp [entryAmt, h1, h2]
  · simp [_binance_futures_get_position_qty, hs]

/-- C7 witness: the first matching entry may sit past the head of the collection, its
unparsable `positionAmt` yields `0.0`; the empty-string response returns `0.0`; a
non-empty-string response errors. -/
theorem position_qty_amended_witness :
    _binance_futures_get_position_qty
      (.arr [.obj [("symbol", Json.str "ETHUSDT")],
             .obj [("symbol", Json.str "BTCUSDT"), ("positionAmt", Json.str "abc")]])
      "BTCUSDT" = .ok 0 ∧
    _binance_futures_get_position_qty (.str "") "BTCUSDT" = .ok 0 ∧
    _binance_futures_get_position_qty (.str "oops") "BTCUSDT" =
      .error "AttributeError" := by
  have h := position_qty_amended "BTCUSDT"
    [("symbol", Json.str "BTCUSDT"), ("positionAmt", Json.str "abc")]
    [[("symbol", Json.str "ETHUSDT")],
     [("symbol", Json.str "BTCUSDT"), ("positionAmt", Json.str "abc")]]
    (Json.str "abc")
  refine ⟨?_, h.2.2.2.1, h.2.2.2.2.2.2.2 "oops" (by decide)⟩
  have hc := h.2.2.1 rfl rfl
  calc _binance_futures_get_position_qty
        (.arr [.obj [("symbol", Json.str "ETHUSDT")],
               .obj [("symbol", Json.str "BTCUSDT"), ("positionAmt", Json.str "abc")]])
        "BTCUSDT"
      = .ok (match List.find? (fun f => entryMatches f "BTCUSDT")
               [[("symbol", Json.str "ETHUSDT")],
                [("symbol", Json.str "BTCUSDT"), ("positionAmt", Json.str "abc")]] with
             | some f => entryAmt f
             | none => 0) := h.2.1
    _ = .ok (entryAmt [("symbol", Json.str "BTCUSDT"), ("positionAmt", Json.str "abc")]) :=
        rfl
    _ = .ok 0 := by rw [hc]

/-! ### Request signer theorems -/

theorem hexdigest_length (bytes : List Nat) :
    (hexdigest bytes).length = 2 * bytes.length := by
  show (bytes.flatMap hexByte).length = 2 * bytes.length
  induction bytes with
  | nil => rfl
  | cons b t ih =>
      simp only [List.flatMap_cons, List.length_append, ih, hexByte, List.length_cons,
        List.length_nil]
      omega

theorem digestBytes_length (st : Hash8) : (digestBytes st).length = 32 := by
  simp [digestBytes, wordBytes]

theorem sha256_length (msg : List Nat) : (sha256 msg).length = 32 := by
  unfold sha256
  exact digestBytes_length _

/-- C2 amended: `_sign` returns a 64-character hex signature for every query and every
secret, the empty secret included — it has no error path. -/
theorem sign_always_signs (secret query : String) : (_sign secret query).length = 64 := by
  unfold _sign hmacSha256
  rw [hexdigest_length, sha256_length]

set_option maxRecDepth 1000000 in
/-- C2 counterexample: with the empty secret, `_sign` still produces the (correct)
HMAC-SHA256 signature of the query rather than an error. -/
theorem sign_empty_secret_cex :
    _sign "" "symbol=BTCUSDT" =
      "14b1c34ce85e7487910e21aef7fdf7e2c582db1f58554d8f896e568415bee6a3" := by
  decide

/-! ### Webhook theorems -/

/-- Any authenticated first delivery of a fresh alert id inserts that id into the
processed set and never answers with the duplicate response. -/
theorem webhook_inserts (cfg : Config) (ids : Finset String)
    (payload : List (String × Json)) (posSell posCover : ℚ)
    (hp : cfg.passphrase ≠ "")
    (hm : passphraseOk payload cfg.passphrase = true)
    (hid : alertId payload ∉ ids) :
    (webhook cfg ids payload posSell posCover).state = insert (alertId payload) ids ∧
    (webhook cfg ids payload posSell posCover).resp ≠ .duplicate := by
  unfold webhook
  rw [if_neg (by push_neg; exact ⟨hp, by simp [hm]⟩), if_neg hid]
  dsimp only
  split
  · simp
  · split
    · simp
    · split
      · simp
      · split
        · simp
        · split
          · simp
          · split <;> simp

/-- C9: a fresh alert identifier processed twice — the first authenticated delivery is
not answered as a duplicate; the second delivery of the same payload is suppressed as a
duplicate with no order attempted, whatever positions the exchange would report. -/
theorem dedup_second_delivery_skips (cfg : Config) (ids : Finset String)
    (payload : List (String × Json)) (posSell posCover posSell2 posCover2 : ℚ)
    (hp : cfg.passphrase ≠ "")
    (hm : passphraseOk payload cfg.passphrase = true)
    (hid : alertId payload ∉ ids) :
    (webhook cfg ids payload posSell posCover).resp ≠ .duplicate ∧
    webhook cfg (webhook cfg ids payload posSell posCover).state payload posSell2 posCover2 =
      ⟨(webhook cfg ids payload posSell posCover).state, .duplicate, []⟩ := by
  obtain ⟨hstate, hresp⟩ := webhook_inserts cfg ids payload posSell posCover hp hm hid
  refine ⟨hresp, ?_⟩
  rw [hstate]
  unfold webhook
  rw [if_neg (by push_neg; exact ⟨hp, by simp [hm]⟩),
      if_pos (Finset.mem_insert_self _ _)]

/-- C9 witness. -/
theorem dedup_second_delivery_skips_witness :
    (webhook ⟨"pp", "k", "s", 100, 1⟩ ∅
        [("passphrase", Json.str "pp"), ("id", Json.str "A1"), ("action", Json.str "buy"),
         ("symbol", Json.str "BINANCE:BTCUSDT"), ("price", Json.num 50000)]
        0 0).resp ≠ Resp.duplicate ∧
    webhook ⟨"pp", "k", "s", 100, 1⟩
        (webhook ⟨"pp", "k", "s", 100, 1⟩ ∅
          [("passphrase", Json.str "pp"), ("id", Json.str "A1"), ("action", Json.str "buy"),
           ("symbol", Json.str "BINANCE:BTCUSDT"), ("price", Json.num 50000)]
          0 0).state
        [("passphrase", Json.str "pp"), ("id", Json.str "A1"), ("action", Json.str "buy"),
         ("symbol", Json.str "BINANCE:BTCUSDT"), ("price", Json.num 50000)]
        0 0 =
      ⟨(webhook ⟨"pp", "k", "s", 100, 1⟩ ∅
          [("passphrase", Json.str "pp"), ("id", Json.str "A1"), ("action", Json.str "buy"),
           ("symbol", Json.str "BINANCE:BTCUSDT"), ("price", Json.num 50000)]
          0 0).state, Resp.duplicate, []⟩ :=
  dedup_second_delivery_skips ⟨"pp", "k", "s", 100, 1⟩ ∅
    [("passphrase", Json.str "pp"), ("id", Json.str "A1"), ("action", Json.str "buy"),
     ("symbol", Json.str "BINANCE:BTCUSDT"), ("price", Json.num 50000)]
    0 0 0 0 (by decide) rfl (by decide)

/-- C10: with a valid passphrase and a fresh id, an unrecognized action verb is
rejected as a client error with no order placed, yet the alert id has been consumed:
the identical retry is suppressed as a duplicate. -/
theorem unknown_action_consumes_id (cfg : Config) (ids : Finset String)
    (payload : List (String × Json)) (posSell posCover : ℚ) (raw : String)
    (hp : cfg.passphrase ≠ "")
    (hm : passphraseOk payload cfg.passphrase = true)
    (hid : alertId payload ∉ ids)
    (hraw : actionRaw payload = .ok raw)
    (hmap : action_map.lookup raw = none) :
    webhook cfg ids payload posSell posCover =
      ⟨insert (alertId payload) ids, .badAction raw, []⟩ ∧
    webhook cfg (insert (alertId payload) ids) payload posSell posCover =
      ⟨insert (alertId payload) ids, .duplicate, []⟩ := by
  constructor
  · unfold webhook
    rw [if_neg (by push_neg; exact ⟨hp, by simp [hm]⟩), if_neg hid]
    simp [hraw, hmap]
  · unfold webhook
    rw [if_neg (by push_neg; exact ⟨hp, by simp [hm]⟩),
        if_pos (Finset.mem_insert_self _ _)]

/-- C10 witness: action `"foo"` is rejected with a 400 but consumes id `"B2"`; the
retry is reported as a duplicate. -/
theorem unknown_action_consumes_id_witness :
    webhook ⟨"pp", "k", "s", 100, 1⟩ ∅
        [("passphrase", Json.str "pp"), ("id", Json.str "B2"), ("action", Json.str "foo")]
        0 0 =
      ⟨insert "B2" ∅, Resp.badAction "foo", []⟩ ∧
    webhook ⟨"pp", "k", "s", 100, 1⟩ (insert "B2" ∅)
        [("passphrase", Json.str "pp"), ("id", Json.str "B2"), ("action", Json.str "foo")]
        0 0 =
      ⟨insert "B2" ∅, Resp.duplicate, []⟩ :=
  unknown_action_consumes_id ⟨"pp", "k", "s", 100, 1⟩ ∅
    [("passphrase", Json.str "pp"), ("id", Json.str "B2"), ("action", Json.str "foo")]
    0 0 "foo" (by decide) rfl (by decide) rfl rfl
